import Mathlib

/-
Verification of the upload submission and job-status streaming pipeline of the
product-management frontend.  The definitions below are a shallow embedding of
src/frontend/src/hooks/useWebSocket.js (the job status stream) and
src/frontend/src/hooks/useProductUpload.js (validation, compression input
handling, and job creation).  JavaScript numbers carried by stream frames are
modelled as integers; an absent (undefined) field is `none`.  Timestamps
(`new Date()`) carry no information used by any property and are omitted from
the LogEntry model.
-/

/-- Javascript truthiness-based `a || b` on optional numbers: an absent field
and the number 0 are falsy, every other number is truthy
(useWebSocket.js lines 60-62, 89-90, 98). -/
def jsOr (a b : Option Int) : Option Int :=
  match a with
  | some n => if n = 0 then b else some n
  | none => b

/-- Javascript `a || 0` on an optional number: the value when truthy, else 0. -/
def orZero (a : Option Int) : Int :=
  match a with
  | some n => n
  | none => 0

/-- Javascript truthiness-based `a || b` on optional strings: an absent field
and the empty string are falsy (useProductUpload.js line 62). -/
def jsOrStr (a : Option String) (b : String) : String :=
  match a with
  | some s => if s = "" then b else s
  | none => b

/-- Connection status values of the stream hook
(useWebSocket.js line 10 plus the `complete` value set at line 88). -/
inductive ConnStatus where
  | disconnected
  | connecting
  | connected
  | complete
  | error
deriving DecidableEq, Repr

/-- One appended log entry (useWebSocket.js lines 47, 55-57, 63-73, 78-81,
92-101).  Fields that a given entry kind does not set are `none`.  The
`timestamp` field of the source carries the wall clock and is omitted. -/
structure LogEntry where
  type : String
  message : Option String
  detail : Option String
  processed : Option Int
  total : Option Int
  percentage : Option Int
deriving DecidableEq, Repr

/-- A parsed stream frame, discriminated on its `type` field
(useWebSocket.js lines 54, 59, 74, 86).  `other` stands for a frame whose
`type` is unrecognized or whose payload failed to parse: the handler ignores
it (lines 106-109).  A `complete` frame may carry a `percentage` field on the
wire; the handler never reads it, and it is kept here so that properties can
quantify over it. -/
inductive StatusEvent where
  | log (message : Option String)
  | progress (message : Option String) (processed total percentage : Option Int)
  | error (message : Option String) (detail : Option String)
  | complete (message : Option String) (processed total percentage : Option Int)
  | other
deriving DecidableEq, Repr

/-- External events driving the hook: the initial `connect()` call, the four
socket callbacks, the reconnect timer firing, and the effect cleanup
(useWebSocket.js lines 29-154). -/
inductive WSEvent where
  | connect
  | sockOpen
  | message (e : StatusEvent)
  | sockError
  | close
  | timerFire
  | cleanup
deriving DecidableEq, Repr

/-- The mutable state of one `useWebSocket(jobId)` instance: the six React
state cells (lines 6-11), the status mirror ref kept in sync by the effect at
lines 18-20, the `shouldReconnectRef` flag, the pending reconnect timer with
its delay in milliseconds, and whether a socket is currently open
(`wsRef`). -/
structure WSState where
  logs : List LogEntry
  progress : Int
  total : Int
  percentage : Int
  status : ConnStatus
  error : Option String
  statusRef : ConnStatus
  shouldReconnect : Bool
  reconnectTimer : Option Nat
  wsOpen : Bool
deriving DecidableEq, Repr

/-- Close the socket only when one is open, as the guarded
`wsRef.current.readyState === WebSocket.OPEN` close calls do
(useWebSocket.js lines 83-85 and 103-105). -/
def closeIfOpen (s : WSState) : WSState :=
  if s.wsOpen then { s with wsOpen := false } else s

/-- The `connect` function body (useWebSocket.js lines 29-39 and 130): bail
out when reconnection is suppressed, otherwise enter `connecting`, clear the
stored error and open a fresh socket. -/
def handleConnect (s : WSState) : WSState :=
  if s.shouldReconnect then
    { s with status := .connecting, error := none, wsOpen := true }
  else s

/-- The `ws.onopen` callback (useWebSocket.js lines 41-48): when reconnection
is suppressed the fresh socket is closed again, otherwise the hook enters
`connected` and appends the synthetic system log entry. -/
def handleOpen (s : WSState) : WSState :=
  if s.shouldReconnect then
    { s with status := .connected,
             logs := s.logs ++ [⟨"system", some "Connected to server", none, none, none, none⟩] }
  else { s with wsOpen := false }

/-- The `ws.onmessage` callback (useWebSocket.js lines 50-110), one case per
frame type.  The `progress` case stores `processed || 0`, `total || 0` and
`percentage || 0` and appends the raw field values.  The `error` case clears
the reconnect flag, enters `error`, stores the message and closes the socket.
The `complete` case clears the reconnect flag, enters `complete`, stores
`processed || 0`, `total || processed || 0` and the constant 100, appends an
entry whose total is `total || processed`, and closes the socket.  Unknown or
malformed frames change nothing. -/
def handleMessage (s : WSState) (e : StatusEvent) : WSState :=
  match e with
  | .log m =>
      { s with logs := s.logs ++ [⟨"log", m, none, none, none, none⟩] }
  | .progress m p t pc =>
      { s with progress := orZero p, total := orZero t, percentage := orZero pc,
               logs := s.logs ++ [⟨"progress", m, none, p, t, pc⟩] }
  | .error m d =>
      closeIfOpen
        { s with shouldReconnect := false, status := .error, error := m,
                 logs := s.logs ++ [⟨"error", m, d, none, none, none⟩] }
  | .complete m p t _pc =>
      closeIfOpen
        { s with shouldReconnect := false, status := .complete,
                 progress := orZero p, total := orZero (jsOr t p), percentage := 100,
                 logs := s.logs ++ [⟨"complete", m, none, p, jsOr t p, none⟩] }
  | .other => s

/-- The `ws.onerror` callback (useWebSocket.js lines 112-116): enter `error`
and store the fixed message.  It neither clears the reconnect flag nor closes
the socket.  Per the WebSocket standard a socket that errors fires its close
event immediately afterwards, within the same task, so the status mirror
effect does not commit between the two callbacks. -/
def handleSockError (s : WSState) : WSState :=
  { s with status := .error, error := some "WebSocket connection error" }

/-- The `ws.onclose` callback (useWebSocket.js lines 118-128): the socket is
now closed, the status is unconditionally set to `disconnected`, and a
3000 ms reconnect timer is scheduled only when the reconnect flag is still
set and the mirrored status is neither `complete` nor `error`. -/
def handleClose (s : WSState) : WSState :=
  if s.shouldReconnect ∧ s.statusRef ≠ .complete ∧ s.statusRef ≠ .error then
    { s with status := .disconnected, wsOpen := false, reconnectTimer := some 3000 }
  else
    { s with status := .disconnected, wsOpen := false }

/-- The reconnect timer callback (useWebSocket.js lines 122-126): the timer
is consumed, and `connect()` runs only when the reconnect flag is still
set. -/
def handleTimerFire (s : WSState) : WSState :=
  if s.shouldReconnect then handleConnect { s with reconnectTimer := none }
  else { s with reconnectTimer := none }

/-- The effect cleanup (useWebSocket.js lines 139-154): clear the reconnect
flag, cancel a pending timer, close the socket, and reset logs, progress,
total, percentage and status to their initial values.  The stored `error`
cell is not touched by this code path. -/
def handleCleanup (s : WSState) : WSState :=
  { s with shouldReconnect := false, reconnectTimer := none, wsOpen := false,
           logs := [], progress := 0, total := 0, percentage := 0,
           status := .disconnected }

/-- The effect at useWebSocket.js lines 18-20 copies `status` into
`statusRef` after a state update commits; it has run by the time the next
browser task fires a socket or timer callback. -/
def syncRef (s : WSState) : WSState :=
  { s with statusRef := s.status }

/-- One external event processed to completion: run the matching handler,
then let React commit the state updates and the ref-sync effect before the
next task.  The one exception is `sockError`: the WebSocket standard fires
the error and close events of a failing socket back-to-back within a single
task, so no render or effect commits between `onerror` and the `onclose`
that follows it, and the close handler reads the status mirror as it was
before the error. -/
def step (s : WSState) (e : WSEvent) : WSState :=
  match e with
  | .connect => syncRef (handleConnect s)
  | .sockOpen => syncRef (handleOpen s)
  | .message ev => syncRef (handleMessage s ev)
  | .sockError => handleSockError s
  | .close => syncRef (handleClose s)
  | .timerFire => syncRef (handleTimerFire s)
  | .cleanup => syncRef (handleCleanup s)

/-- Process a sequence of events in order. -/
def run (s : WSState) (es : List WSEvent) : WSState :=
  es.foldl step s

/-- The hook state at mount for a non-null job id: empty logs, zeroed
progress, `disconnected`, no error, reconnect enabled (line 27), no timer,
no socket. -/
def initState : WSState :=
  ⟨[], 0, 0, 0, .disconnected, none, .disconnected, true, none, false⟩

/-- Events that can still be delivered after the handler has asked the socket
to close: the socket callbacks of a dying connection and a timer firing.  A
closed socket delivers no further message frames, and the cleanup route is
the explicit teardown, not part of the post-terminal quiescence claim. -/
def passiveEvent : WSEvent → Bool
  | .message _ => false
  | .cleanup => false
  | _ => true

/-- Build the stream of `progress` frames from a list of field tuples. -/
def progressEvents (qs : List (Option String × Option Int × Option Int × Option Int)) :
    List WSEvent :=
  qs.map (fun q => .message (.progress q.1 q.2.1 q.2.2.1 q.2.2.2))

/-- A file-like input as the upload hook sees it: a name and the raw byte
content (useProductUpload.js line 10). -/
structure JsFile where
  name : String
  content : List Nat
deriving DecidableEq, Repr

/-- Result of the `apiClient.post` call (useProductUpload.js lines 51-62):
either an HTTP 2xx response whose parsed body may or may not carry a
`job_id` field, or a failure whose response body may carry a `detail` string
and whose error object may carry a `message`. -/
inductive HttpResult where
  | ok (job_id : Option String)
  | fail (detail : Option String) (message : Option String)
deriving DecidableEq, Repr

/-- Observable outcome of one `uploadFile` call (useProductUpload.js
lines 10-67): the null-file rejection (line 12), the extension rejection
(line 18), a success carrying whatever `response.data.job_id` held (lines
57-60), or the catch branch with its derived message (line 62). -/
inductive UploadOutcome where
  | noFile
  | notCsv
  | success (jobId : Option String)
  | failed (message : String)
deriving DecidableEq, Repr

/-- Character-level suffix test, mirroring the Javascript
`String.prototype.endsWith` used at useProductUpload.js line 17. -/
def strEndsWith (s suffix : String) : Bool :=
  suffix.data.isSuffixOf s.data

/-- The control flow of `uploadFile` (useProductUpload.js lines 10-67).
Validation runs before any file read, compression or network activity, so
the network response enters the model as a plain parameter consulted only
after validation passes; the compression of the byte content is modelled
separately by `fileDataBytes`. -/
def uploadFile (file : Option JsFile) (post : HttpResult) : UploadOutcome :=
  match file with
  | none => .noFile
  | some f =>
    if strEndsWith f.name ".csv" = false ∧ strEndsWith f.name ".CSV" = false then
      .notCsv
    else
      match post with
      | .ok jid => .success jid
      | .fail d m => .failed (jsOrStr d (jsOrStr m "Upload failed"))

@[simp]
theorem closeIfOpen_percentage (s : WSState) : (closeIfOpen s).percentage = s.percentage := by
  unfold closeIfOpen; split <;> rfl

@[simp]
theorem closeIfOpen_total (s : WSState) : (closeIfOpen s).total = s.total := by
  unfold closeIfOpen; split <;> rfl

@[simp]
theorem closeIfOpen_progress (s : WSState) : (closeIfOpen s).progress = s.progress := by
  unfold closeIfOpen; split <;> rfl

@[simp]
theorem closeIfOpen_logs (s : WSState) : (closeIfOpen s).logs = s.logs := by
  unfold closeIfOpen; split <;> rfl

@[simp]
theorem closeIfOpen_status (s : WSState) : (closeIfOpen s).status = s.status := by
  unfold closeIfOpen; split <;> rfl

@[simp]
theorem closeIfOpen_statusRef (s : WSState) : (closeIfOpen s).statusRef = s.statusRef := by
  unfold closeIfOpen; split <;> rfl

@[simp]
theorem closeIfOpen_error (s : WSState) : (closeIfOpen s).error = s.error := by
  unfold closeIfOpen; split <;> rfl

@[simp]
theorem closeIfOpen_shouldReconnect (s : WSState) :
    (closeIfOpen s).shouldReconnect = s.shouldReconnect := by
  unfold closeIfOpen; split <;> rfl

@[simp]
theorem closeIfOpen_reconnectTimer (s : WSState) :
    (closeIfOpen s).reconnectTimer = s.reconnectTimer := by
  unfold closeIfOpen; split <;> rfl

@[simp]
theorem syncRef_percentage (s : WSState) : (syncRef s).percentage = s.percentage := rfl

@[simp]
theorem syncRef_total (s : WSState) : (syncRef s).total = s.total := rfl

@[simp]
theorem syncRef_progress (s : WSState) : (syncRef s).progress = s.progress := rfl

@[simp]
theorem syncRef_logs (s : WSState) : (syncRef s).logs = s.logs := rfl

@[simp]
theorem syncRef_status (s : WSState) : (syncRef s).status = s.status := rfl

@[simp]
theorem syncRef_statusRef (s : WSState) : (syncRef s).statusRef = s.status := rfl

@[simp]
theorem syncRef_error (s : WSState) : (syncRef s).error = s.error := rfl

@[simp]
theorem syncRef_shouldReconnect (s : WSState) :
    (syncRef s).shouldReconnect = s.shouldReconnect := rfl

@[simp]
theorem syncRef_reconnectTimer (s : WSState) :
    (syncRef s).reconnectTimer = s.reconnectTimer := rfl

/-- One passive event preserves the quiescence established by a terminal
stream event: the reconnect flag stays cleared, no log entry is appended, no
transition to `connecting` happens, and no new reconnect timer appears. -/
theorem step_passive (s : WSState) (e : WSEvent)
    (hrec : s.shouldReconnect = false) (hst : s.status ≠ .connecting)
    (he : passiveEvent e = true) :
    (step s e).shouldReconnect = false ∧ (step s e).logs = s.logs ∧
      (step s e).status ≠ .connecting ∧
      ((step s e).reconnectTimer = s.reconnectTimer ∨ (step s e).reconnectTimer = none) := by
  cases e with
  | connect =>
    refine ⟨?_, ?_, ?_, Or.inl ?_⟩ <;> simp [step, handleConnect, syncRef, hrec, hst]
  | sockOpen =>
    refine ⟨?_, ?_, ?_, Or.inl ?_⟩ <;> simp [step, handleOpen, syncRef, hrec, hst]
  | message ev => simp [passiveEvent] at he
  | sockError =>
    refine ⟨?_, ?_, ?_, Or.inl ?_⟩ <;> simp [step, handleSockError, syncRef, hrec]
  | close =>
    refine ⟨?_, ?_, ?_, Or.inl ?_⟩ <;> simp [step, handleClose, syncRef, hrec]
  | timerFire =>
    refine ⟨?_, ?_, ?_, Or.inr ?_⟩ <;> simp [step, handleTimerFire, syncRef, hrec, hst]
  | cleanup => simp [passiveEvent] at he

/-- The event trace that makes a fresh stream receive a `complete` frame. -/
def completeTrace : List WSEvent :=
  [.connect, .sockOpen, .message (.complete none (some 10) (some 10) none)]

/-- The stream state right after that `complete` frame was processed. -/
def postCompleteState : WSState :=
  run initState completeTrace

/-- Claim C1, counterexample: after a `Complete` event the stream state is
`complete`, yet processing the socket close that the handler itself
triggered mutates the ConnectionState to `disconnected`, so state mutation
for the job does continue past the terminal event. -/
theorem c1_counterexample :
    (run initState completeTrace).status = .complete ∧
      (run initState (completeTrace ++ [.close])).status = .disconnected :=
  ⟨rfl, rfl⟩

/-- Claim C1, amended: after a `Complete` or `Error` event (which clears the
reconnect flag and leaves `connecting`), any sequence of remaining socket or
timer callbacks appends no further LogEntry, never reaches `connecting`
(hence no reconnection attempt occurs), and never schedules a new reconnect
timer; the ConnectionState itself is not frozen, since the close callback
still rewrites it. -/
theorem c1_amended (s : WSState) (es : List WSEvent)
    (hrec : s.shouldReconnect = false) (hst : s.status ≠ .connecting)
    (hall : ∀ e ∈ es, passiveEvent e = true) :
    (run s es).shouldReconnect = false ∧ (run s es).logs = s.logs ∧
      (run s es).status ≠ .connecting ∧
      ((run s es).reconnectTimer = s.reconnectTimer ∨ (run s es).reconnectTimer = none) := by
  induction es generalizing s with
  | nil => exact ⟨hrec, rfl, hst, Or.inl rfl⟩
  | cons e es ih =>
    have he : passiveEvent e = true := hall e (List.mem_cons_self e es)
    obtain ⟨H1, H2, H3, H4⟩ := step_passive s e hrec hst he
    have hall2 : ∀ e2 ∈ es, passiveEvent e2 = true :=
      fun e2 h2 => hall e2 (List.mem_cons_of_mem e h2)
    obtain ⟨G1, G2, G3, G4⟩ := ih (step s e) H1 H3 hall2
    refine ⟨G1, G2.trans H2, G3, ?_⟩
    rcases G4 with g | g
    · rcases H4 with h | h
      · exact Or.inl (g.trans h)
      · exact Or.inr (g.trans h)
    · exact Or.inr g

/-- Claim C1, witness of the amended theorem at the concrete post-complete
state followed by the socket close. -/
theorem c1_witness :
    (run postCompleteState [.close]).shouldReconnect = false ∧
      (run postCompleteState [.close]).logs = postCompleteState.logs ∧
      (run postCompleteState [.close]).status ≠ .connecting ∧
      ((run postCompleteState [.close]).reconnectTimer = postCompleteState.reconnectTimer ∨
        (run postCompleteState [.close]).reconnectTimer = none) :=
  c1_amended postCompleteState [.close] (by decide) (by decide) (by decide)

/-- Claim C2, counterexample: a `Progress` frame carrying percentage 150 is
stored as 150, outside [0, 100] - the handler performs no clamping. -/
theorem c2_counterexample :
    ¬(0 ≤ (run initState [.connect, .sockOpen,
        .message (.progress none (some 5) (some 10) (some 150))]).percentage ∧
      (run initState [.connect, .sockOpen,
        .message (.progress none (some 5) (some 10) (some 150))]).percentage ≤ 100) := by
  decide

/-- Claim C2, amended: after any `Progress` event the stored percentage is
the raw event value when that value is truthy and 0 otherwise; no clamping
to [0, 100] is applied, so out-of-range values are stored as-is. -/
theorem c2_amended (s : WSState) (m : Option String) (p t pc : Option Int) :
    (step s (.message (.progress m p t pc))).percentage = orZero pc := rfl

/-- Claim C3, counterexample: an HTTP 2xx response whose body lacks the
`job_id` field makes `uploadFile` succeed with an absent job id; no
ProtocolError (nor any error) is produced. -/
theorem c3_counterexample :
    uploadFile (some ⟨"data.csv", [115]⟩) (.ok none) = .success none := by
  decide

/-- Claim C3, amended: on an HTTP 2xx response `uploadFile` returns success
carrying exactly the `job_id` value of the body, present or not; absence is
not detected and raises no error. -/
theorem c3_amended (f : JsFile) (jid : Option String)
    (h : strEndsWith f.name ".csv" = true ∨ strEndsWith f.name ".CSV" = true) :
    uploadFile (some f) (.ok jid) = .success jid := by
  unfold uploadFile
  rcases h with h | h <;> simp [h]

/-- Claim C3, witness of the amended theorem at a concrete CSV upload. -/
theorem c3_witness :
    uploadFile (some ⟨"products.csv", [1, 2]⟩) (.ok (some "job-123")) =
      .success (some "job-123") :=
  c3_amended ⟨"products.csv", [1, 2]⟩ (some "job-123") (Or.inl (by decide))

/-- Claim C4, counterexample: the mixed-case name `data.Csv` carries the
accepted extension case-insensitively, yet `uploadFile` rejects it, because
the code tests only the exact suffixes `.csv` and `.CSV`. -/
theorem c4_counterexample :
    uploadFile (some ⟨"data.Csv", [65]⟩) (.ok (some "j1")) = .notCsv := by
  decide

/-- Claim C4, amended: any file whose name ends in neither the exact suffix
`.csv` nor the exact suffix `.CSV` is rejected with the validation error,
and the outcome is independent of the file content and of the network
response, i.e. the rejection happens before any file I/O or network call. -/
theorem c4_amended (name : String) (content content2 : List Nat) (post post2 : HttpResult)
    (h1 : strEndsWith name ".csv" = false) (h2 : strEndsWith name ".CSV" = false) :
    uploadFile (some ⟨name, content⟩) post = .notCsv ∧
      uploadFile (some ⟨name, content⟩) post = uploadFile (some ⟨name, content2⟩) post2 := by
  unfold uploadFile
  simp [h1, h2]

/-- Claim C4, witness of the amended theorem at the spec scenario input
`report.txt`. -/
theorem c4_witness :
    uploadFile (some ⟨"report.txt", [10]⟩) (.ok (some "j")) = .notCsv ∧
      uploadFile (some ⟨"report.txt", [10]⟩) (.ok (some "j")) =
        uploadFile (some ⟨"report.txt", [99]⟩) (.fail none none) :=
  c4_amended "report.txt" [10] [99] (.ok (some "j")) (.fail none none) (by decide) (by decide)

/-- Claim C5, confirmed: from any state, after any sequence of `Progress`
frames followed by a `Complete` frame, the stored percentage is exactly 100,
whatever percentages the progress frames or the complete frame carried. -/
theorem c5_theorem (s : WSState)
    (qs : List (Option String × Option Int × Option Int × Option Int))
    (m : Option String) (p t pc : Option Int) :
    (run s (progressEvents qs ++ [.message (.complete m p t pc)])).percentage = 100 := by
  unfold run
  rw [List.foldl_append]
  simp [step, handleMessage]

/-- The stream state right after the initial `connect()` call. -/
def connectingState : WSState :=
  run initState [.connect]

/-- Claim C6, counterexample: a socket-level error during the initial
connect attempt does move the stream to `error`, but that state is not
terminal: the close event ending the failed attempt runs in the same task,
before the status mirror commits, so it reads the stale `connecting` status
with the reconnect flag still set, schedules the 3000 ms reconnect timer,
and the firing timer starts connecting again. -/
theorem c6_counterexample :
    (step connectingState .sockError).status = .error ∧
      (run connectingState [.sockError, .close]).reconnectTimer = some 3000 ∧
      (run connectingState [.sockError, .close, .timerFire]).status = .connecting :=
  ⟨rfl, rfl, rfl⟩

/-- Claim C6, amended: a socket-level error while the stream is connecting
transitions the stream to the error state, but that state is not terminal:
`ws.onerror` clears no reconnect flag, and the close callback of the failed
attempt reads the status mirror committed before the failing task
(`connecting`), so one 3000 ms reconnection attempt is scheduled and the
stream returns to connecting when the timer fires. -/
theorem c6_amended (s : WSState) (h1 : s.status = .connecting)
    (h2 : s.statusRef = .connecting) (h3 : s.shouldReconnect = true) :
    (step s .sockError).status = .error ∧
      (step s .sockError).shouldReconnect = true ∧
      (run s [.sockError, .close]).status = .disconnected ∧
      (run s [.sockError, .close]).reconnectTimer = some 3000 ∧
      (run s [.sockError, .close, .timerFire]).status = .connecting := by
  refine ⟨rfl, h3, ?_, ?_, ?_⟩ <;>
    simp [run, step, handleSockError, handleClose, handleTimerFire, handleConnect, syncRef,
      h2, h3]

/-- Claim C6, witness of the amended theorem at the concrete state reached
by the initial connect attempt. -/
theorem c6_witness :
    (step connectingState .sockError).status = .error ∧
      (step connectingState .sockError).shouldReconnect = true ∧
      (run connectingState [.sockError, .close]).status = .disconnected ∧
      (run connectingState [.sockError, .close]).reconnectTimer = some 3000 ∧
      (run connectingState [.sockError, .close, .timerFire]).status = .connecting :=
  c6_amended connectingState (by decide) (by decide) (by decide)

/-- Claim C7, confirmed: a close in the `connected` state with the reconnect
flag set and no terminal event seen schedules exactly one reconnect timer
with the fixed 3000 ms delay and moves the state to `disconnected`; when the
timer fires the state moves to `connecting`, the timer is consumed, and the
reconnect flag stays set, so the same policy reapplies to every later
non-terminal disconnect, unbounded. -/
theorem c7_theorem (s : WSState) (h1 : s.status = .connected)
    (h2 : s.statusRef = .connected) (h3 : s.shouldReconnect = true)
    (h4 : s.reconnectTimer = none) :
    (step s .close).status = .disconnected ∧
      (step s .close).reconnectTimer = some 3000 ∧
      (run s [.close, .timerFire]).status = .connecting ∧
      (run s [.close, .timerFire]).reconnectTimer = none ∧
      (run s [.close, .timerFire]).shouldReconnect = true := by
  refine ⟨?_, ?_, ?_, ?_, ?_⟩ <;>
    simp [run, step, handleClose, handleTimerFire, handleConnect, syncRef, h2, h3]

/-- The stream state of an established connection, reached by connect then
socket open. -/
def connectedState : WSState :=
  run initState [.connect, .sockOpen]

/-- Claim C7, witness at the concrete established-connection state. -/
theorem c7_witness :
    (step connectedState .close).status = .disconnected ∧
      (step connectedState .close).reconnectTimer = some 3000 ∧
      (run connectedState [.close, .timerFire]).status = .connecting ∧
      (run connectedState [.close, .timerFire]).reconnectTimer = none ∧
      (run connectedState [.close, .timerFire]).shouldReconnect = true :=
  c7_theorem connectedState (by decide) (by decide) (by decide) (by decide)

/-- Claim C8, counterexample: after a socket-level error stored the error
message, running the cleanup leaves that stored error in place instead of
resetting it to its initial empty form `none`. -/
theorem c8_counterexample :
    (run initState [.connect, .sockError, .cleanup]).error =
        some "WebSocket connection error" ∧
      initState.error = none :=
  ⟨rfl, rfl⟩

/-- Claim C8, amended: the cleanup path marks do-not-reconnect, clears any
pending reconnect timer, closes an open connection, and resets logs,
progress, total, percentage and connection state to their initial empty
forms, and it is idempotent; the stored error, however, is left unchanged
rather than reset. -/
theorem c8_amended (s : WSState) :
    (step s .cleanup).shouldReconnect = false ∧
      (step s .cleanup).reconnectTimer = none ∧
      (step s .cleanup).wsOpen = false ∧
      (step s .cleanup).logs = [] ∧
      (step s .cleanup).progress = 0 ∧
      (step s .cleanup).total = 0 ∧
      (step s .cleanup).percentage = 0 ∧
      (step s .cleanup).status = .disconnected ∧
      (step s .cleanup).error = s.error ∧
      step (step s .cleanup) .cleanup = step s .cleanup :=
  ⟨rfl, rfl, rfl, rfl, rfl, rfl, rfl, rfl, rfl, rfl⟩

/-- Claim C10, counterexample: for a `Complete` frame with both `total` and
`processed` absent, the stored snapshot total falls back to 0, but the
appended complete LogEntry records an absent total, not that same fallback
value. -/
theorem c10_counterexample :
    (run initState [.connect, .sockOpen,
        .message (.complete none none none none)]).total = 0 ∧
      ((run initState [.connect, .sockOpen,
          .message (.complete none none none none)]).logs.getLast?.map LogEntry.total) =
        some none ∧
      ((run initState [.connect, .sockOpen,
          .message (.complete none none none none)]).logs.getLast?.map LogEntry.total) ≠
        some (some ((run initState [.connect, .sockOpen,
          .message (.complete none none none none)]).total)) :=
  ⟨rfl, rfl, by decide⟩

/-- Claim C10, amended: on a `Complete` event the stored snapshot total is
the event total when truthy, else the event processed value when truthy,
else 0; the appended complete LogEntry records total-or-processed without
the final 0 fallback, so when both fields are falsy the entry total is the
raw falsy processed value rather than 0. -/
theorem c10_amended (s : WSState) (m : Option String) (p t pc : Option Int) :
    (step s (.message (.complete m p t pc))).total = orZero (jsOr t p) ∧
      (step s (.message (.complete m p t pc))).logs =
        s.logs ++ [⟨"complete", m, none, p, jsOr t p, none⟩] := by
  constructor <;> simp [step, handleMessage]
